/-
Verification of the inference-queue broker, dispatcher, GPU arbiter and chat
agent of the compliance-local-ai repository, as a shallow embedding in Lean 4.

The embedding follows the Python source:
  inference/src/database/service.py      (DatabaseAdapter)
  inference/src/services/queue_service.py (QueueService)
  inference/src/services/inference_service.py (InferenceService)
  inference/src/services/gpu_manager.py  (GPUResourceManager)
  inference/src/agents/chat_agent.py     (ChatAgent)

Python dictionaries are modelled as association lists of string keys over a
dynamic value type `PyVal`; JSON encoding at the store boundary is modelled as
the identity on structured values.  Wall-clock instants are passed explicitly
as natural numbers.  External effects (the LLM backend call, GPU availability)
are parameters of the functions that consume them.
-/
import Mathlib

namespace ComplianceAI

/-- Dynamic Python-like value: the payloads, request dictionaries and result
dictionaries that flow through the queue pipeline. -/
inductive PyVal where
  | none
  | bool (b : Bool)
  | int (n : Int)
  | str (s : String)
  | list (xs : List PyVal)
  | dict (entries : List (String × PyVal))

/-- Association-list lookup, first match wins (our dicts carry unique keys). -/
def assocFind : List (String × PyVal) → String → Option PyVal
  | [], _ => Option.none
  | (k', v) :: rest, k => if k' = k then some v else assocFind rest k

/-- `d.get(k)` / `d[k]` style lookup on a dict value: `none` models both a
missing key (`.get` returning None) and, at call sites that index directly,
a raised `KeyError`. -/
def dictGetOpt : PyVal → String → Option PyVal
  | .dict d, k => assocFind d k
  | _, _ => Option.none

/-- `d.get(k, default)`. -/
def dictGetD (v : PyVal) (k : String) (dflt : PyVal) : PyVal :=
  match dictGetOpt v k with
  | some x => x
  | Option.none => dflt

/-- `d[k] = x`: replace the binding if present, append otherwise. -/
def assocSet : List (String × PyVal) → String → PyVal → List (String × PyVal)
  | [], k, x => [(k, x)]
  | (k', v) :: rest, k, x =>
      if k' = k then (k, x) :: rest else (k', v) :: assocSet rest k x

/-- Dict update on a `PyVal` (no-op on non-dicts). -/
def dictSet (v : PyVal) (k : String) (x : PyVal) : PyVal :=
  match v with
  | .dict d => .dict (assocSet d k x)
  | other => other

/-- Python truthiness of a value. -/
def pyTruthy : PyVal → Bool
  | .none => false
  | .bool b => b
  | .int n => !(n == 0)
  | .str s => !(s == "")
  | .list xs => !xs.isEmpty
  | .dict d => !d.isEmpty

/-- Merge of two dict entry lists, `\x7b**a, **b\x7d` style: keys of `b` win. -/
def dictMerge (a b : List (String × PyVal)) : List (String × PyVal) :=
  a.filter (fun kv => !(b.any (fun kv2 => kv2.1 == kv.1))) ++ b

/-- Extract a string field of a result dict. -/
def pyGetStr (v : PyVal) (k : String) : Option String :=
  match dictGetOpt v k with
  | some (.str s) => some s
  | _ => Option.none

/-- Extract a boolean field of a result dict. -/
def pyGetBool (v : PyVal) (k : String) : Option Bool :=
  match dictGetOpt v k with
  | some (.bool b) => some b
  | _ => Option.none

/-- A string value with a fallback, as `custom_gpt.get(key, fallback)` uses it. -/
def asStrD (v : PyVal) (dflt : String) : String :=
  match v with
  | .str s => s
  | _ => dflt

/-- `Option String` to a Python value (NULL columns surface as None). -/
def optStrPy : Option String → PyVal
  | some s => .str s
  | Option.none => .none

/-- `Option Nat` timestamp to a Python value. -/
def optNatPy : Option Nat → PyVal
  | some n => .int n
  | Option.none => .none

/-- Substring test on character lists: does the needle occur as a prefix. -/
def isPrefixLst : List Char → List Char → Bool
  | [], _ => true
  | _ :: _, [] => false
  | c :: cs, d :: ds => c == d && isPrefixLst cs ds

/-- Substring occurrence anywhere in the haystack. -/
def containsAux (needle : List Char) : List Char → Bool
  | [] => isPrefixLst needle []
  | c :: t => isPrefixLst needle (c :: t) || containsAux needle t

/-- Python `needle in haystack` on strings. -/
def strContains (haystack needle : String) : Bool :=
  containsAux needle.data haystack.data

/-- Status column of the `inference_queue` table. -/
inductive Status where
  | pending
  | processing
  | completed
  | failed
deriving DecidableEq

/-- Status enum rendered as the stored string. -/
def statusStr : Status → String
  | .pending => "pending"
  | .processing => "processing"
  | .completed => "completed"
  | .failed => "failed"

/-- One row of the `inference_queue` table.  `input_data` is kept in decoded
form; textual encoding at the SQL boundary is the identity on structure. -/
structure QueueRow where
  id : String
  request_type : String
  message_id : Option String
  custom_gpt_id : Option String
  user_id : String
  priority : Nat
  status : Status
  created_at : Nat
  started_at : Option Nat
  completed_at : Option Nat
  input_data : PyVal
  response_content : Option PyVal
  response_metadata : Option PyVal
  error_message : Option String
  retry_count : Nat

/-- The queue table. -/
abbrev QueueState := List QueueRow

/-- Ids of the rows are pairwise distinct (primary-key discipline). -/
def idsNodup (s : QueueState) : Prop := (s.map QueueRow.id).Nodup

/-- Strict lexicographic order on `(priority, created_at)`:
`ORDER BY priority ASC, created_at ASC`. -/
def keyLt (a b : QueueRow) : Bool :=
  a.priority < b.priority ∨ (a.priority = b.priority ∧ a.created_at < b.created_at)

/-- Combine a candidate pending row with the best row of the remainder,
preferring the strictly smaller `(priority, created_at)` key. -/
def minPick (r : QueueRow) : Option QueueRow → Option QueueRow
  | Option.none => some r
  | some m => if keyLt m r then some m else some r

/-- `DatabaseAdapter.poll_inference_queue(limit=1)` followed by `requests[0]`:
the pending row minimising `(priority, created_at)` (stable on ties, as any
single row returned by the ORDER BY / LIMIT 1 query). -/
def selectMinPending : QueueState → Option QueueRow
  | [] => Option.none
  | r :: rs =>
      if r.status = Status.pending then minPick r (selectMinPending rs)
      else selectMinPending rs

/-- `DatabaseAdapter.claim_inference_request`: the atomic
`UPDATE ... SET status='processing', started_at=now WHERE id=? AND
status='pending'`; the boolean is `rowcount > 0`. -/
def claimInferenceRequest (rid : String) (now : Nat) (s : QueueState) :
    Bool × QueueState :=
  (s.any (fun r => decide (r.id = rid ∧ r.status = Status.pending)),
   s.map (fun r =>
     if r.id = rid ∧ r.status = Status.pending then
       { r with status := Status.processing, started_at := some now }
     else r))

/-- `DatabaseAdapter.complete_inference_request`: guard `status='processing'`,
set terminal status, `completed_at`, extracted response content, JSON-dumped
metadata and the error message; the boolean is `rowcount > 0`. -/
def completeInferenceRequest (rid : String) (success : Bool)
    (responseData : PyVal) (errorMessage : Option String) (now : Nat)
    (s : QueueState) : Bool × QueueState :=
  let status := if success then Status.completed else Status.failed
  let responseContent :=
    if pyTruthy responseData then dictGetOpt responseData "content"
    else Option.none
  let responseMetadata :=
    if pyTruthy responseData then dictGetD responseData "metadata" (.dict [])
    else PyVal.dict []
  (s.any (fun r => decide (r.id = rid ∧ r.status = Status.processing)),
   s.map (fun r =>
     if r.id = rid ∧ r.status = Status.processing then
       { r with
           status := status
           completed_at := some now
           response_content := responseContent
           response_metadata := some responseMetadata
           error_message := errorMessage }
     else r))

/-- The dict a polled row presents to `QueueService.get_next_request`: exactly
the columns of the SELECT in `poll_inference_queue` (note: `input_data`, not
the legacy `request_data` name). -/
def rowToDict (r : QueueRow) : List (String × PyVal) :=
  [("id", .str r.id),
   ("request_type", .str r.request_type),
   ("message_id", optStrPy r.message_id),
   ("custom_gpt_id", optStrPy r.custom_gpt_id),
   ("user_id", .str r.user_id),
   ("priority", .int r.priority),
   ("status", .str (statusStr r.status)),
   ("created_at", .int r.created_at),
   ("started_at", optNatPy r.started_at),
   ("completed_at", optNatPy r.completed_at),
   ("input_data", r.input_data)]

/-- The explicit fields of the `complete_request` dict built by
`get_next_request` before `**request_data` is unpacked over it. -/
def completeRequestBase (r : QueueRow) : List (String × PyVal) :=
  [("request_id", .str r.id),
   ("request_type", .str r.request_type),
   ("message_id", optStrPy r.message_id),
   ("custom_gpt_id", optStrPy r.custom_gpt_id),
   ("user_id", .str r.user_id),
   ("priority", .int r.priority),
   ("created_at", .int r.created_at)]

/-- `QueueService.get_next_request`: poll the top pending row, claim it, then
build the request object.  The body indexes `request["request_data"]`, a key
the SELECT does not produce (the column is `input_data`); in the source the
resulting `KeyError` escapes the inner json guard and is caught by the
enclosing `except Exception`, which returns `None` -- after the claim has
already been committed. -/
def getNextRequest (now : Nat) (s : QueueState) : Option PyVal × QueueState :=
  match selectMinPending s with
  | Option.none => (Option.none, s)
  | some row =>
      let claimRes := claimInferenceRequest row.id now s
      if claimRes.1 = false then (Option.none, claimRes.2)
      else
        match dictGetOpt (.dict (rowToDict row)) "request_data" with
        | Option.none => (Option.none, claimRes.2)
        | some rd =>
            let requestData : List (String × PyVal) :=
              if pyTruthy rd then
                match rd with
                | .dict d => d
                | _ => []
              else []
            (some (.dict (dictMerge (completeRequestBase row) requestData)),
             claimRes.2)

/-! ### Chat agent (`ChatAgent`, chat_agent.py) -/

/-- Outcome of the external `agent.run` call inside `ChatAgent.process_chat`:
a successful model output with its token usage, or one of the exception kinds
the handler distinguishes by type name.  Each `msg` is the `str(e)` text. -/
inductive AgentRunOutcome where
  | ok (output : String) (inputTokens outputTokens : Nat)
  | usageLimitExceeded (msg : String)
  | unexpectedModelBehavior (msg : String)
  | otherError (msg : String)

/-- `ChatAgent._calculate_confidence_score`: the specialization heuristic
(0.75 compliance, 0.80 crm/portfolio, 0.85 otherwise).  Scores are modelled
in hundredths -- the source's 0.85 is 85 here -- so that the order
comparisons against the 0.7 and 0.5 thresholds are exact. -/
def calculateConfidenceScore (specialization : String) : Nat :=
  if specialization = "compliance" then 75
  else if specialization = "crm" ∨ specialization = "portfolio" then 80
  else 85

/-- ASCII lowering of one character, as `str.lower()` acts on the prompts at
hand. -/
def charToLower (c : Char) : Char :=
  if c.isUpper then Char.ofNat (c.toNat + 32) else c

/-- Python `str.lower()`. -/
def strToLower (s : String) : String := String.mk (s.data.map charToLower)

/-- `ChatAgent._check_sec_compliance`: lowercase the output and reject on the
prohibited phrases; the compliance specialization otherwise passes, and the
default is compliant. -/
def checkSecCompliance (output : String) (specialization : String) : Bool :=
  let content := strToLower output
  if strContains content "guaranteed returns" || strContains content "risk-free" then
    false
  else if specialization = "compliance" then true
  else true

/-- The specialization `process_chat` reads from the custom-GPT dict. -/
def specializationOf (customGpt : PyVal) : String :=
  asStrD (dictGetD customGpt "specialization" (.str "general")) "general"

/-- The error-response dict of `process_chat` (lines 437-450): `errMsg` is the
user-facing `error_message` chosen per exception kind, `msg` the `str(e)`
text stored under the `error` key. -/
def chatErrorDict (specialization errMsg msg : String)
    (processingTimeMs : Nat) : PyVal :=
  .dict
    [("success", .bool false),
     ("content", .str errMsg),
     ("confidence_score", .int 0),
     ("model_used", .str (specialization ++ "_error")),
     ("processing_time_ms", .int processingTimeMs),
     ("mcp_interactions", .list []),
     ("compliance_flags", .list [.str "ERROR", .str "HUMAN_REVIEW_REQUIRED"]),
     ("sec_compliant", .bool false),
     ("human_review_required", .bool true),
     ("input_tokens", .int 0),
     ("output_tokens", .int 0),
     ("error", .str msg)]

/-- `ChatAgent.process_chat`: run the specialized agent and build the response
dict; on the exception path, build the error response dict of lines 437-450.
`processingTimeMs` stands for the measured elapsed time and `chatModelName`
for `self.models["chat"].model_name`. -/
def processChat (customGpt : PyVal) (agentOut : AgentRunOutcome)
    (processingTimeMs : Nat) (chatModelName : String) : PyVal :=
  let specialization := specializationOf customGpt
  match agentOut with
  | .ok output inTok outTok =>
      let confidence := calculateConfidenceScore specialization
      let secCompliant := checkSecCompliance output specialization
      let humanReview :=
        decide (confidence < 70) || decide (specialization = "compliance")
      let complianceFlags :=
        (if secCompliant = false then ["SEC_NON_COMPLIANT"] else []) ++
        (if humanReview then ["HUMAN_REVIEW_REQUIRED"] else []) ++
        (if confidence < 50 then ["LOW_CONFIDENCE"] else [])
      .dict
        [("success", .bool true),
         ("content", .str output),
         ("confidence_score", .int confidence),
         ("model_used", .str (specialization ++ "_" ++ chatModelName)),
         ("processing_time_ms", .int processingTimeMs),
         ("mcp_interactions", .list []),
         ("compliance_flags", .list (complianceFlags.map PyVal.str)),
         ("sec_compliant", .bool secCompliant),
         ("human_review_required", .bool humanReview),
         ("input_tokens", .int inTok),
         ("output_tokens", .int outTok)]
  | .usageLimitExceeded m =>
      chatErrorDict specialization
        "Response limit exceeded. Please try a simpler request." m processingTimeMs
  | .unexpectedModelBehavior m =>
      chatErrorDict specialization
        "AI model encountered an error. Please try again." m processingTimeMs
  | .otherError m =>
      chatErrorDict specialization ("Processing failed: " ++ m) m processingTimeMs

/-! ### Dispatcher (`InferenceService`, inference_service.py) -/

/-- `InferenceService._process_chat_request`: validate `input_data`, acquire
the GPU inside the `_gpu_resource` context manager, run the chat agent, then
perform the side-effect writes (user / custom-GPT / thread / assistant
message rows live in other tables, outside the modelled queue state).
`gpuAcquired` is the outcome of `gpu_manager.acquire_resource`; the second
component records whether the context manager released the permit on the way
out -- exactly when it had been acquired. -/
def processChatRequest (request : PyVal) (gpuAcquired : Bool)
    (agentOut : AgentRunOutcome) (processingTimeMs : Nat)
    (chatModelName : String) : PyVal × Bool :=
  match dictGetOpt request "input_data" with
  | Option.none =>
      (.dict [("success", .bool false),
              ("error", .str "Missing input_data field in request"),
              ("processing_time_ms", .int 0)], false)
  | some v =>
      if pyTruthy v = false then
        (.dict [("success", .bool false),
                ("error", .str "Empty input_data field in request"),
                ("processing_time_ms", .int 0)], false)
      else
        match v with
        | .dict d =>
            if gpuAcquired = false then
              (.dict [("success", .bool false),
                      ("error", .str "GPU resource timeout - system overloaded"),
                      ("processing_time_ms", .int 0)], false)
            else
              let requestData := PyVal.dict d
              let customGptId :=
                dictGetD requestData "custom_gpt_id"
                  (dictGetD request "custom_gpt_id" .none)
              let customGpt := PyVal.dict
                [("id", customGptId),
                 ("user_id", dictGetD request "user_id" .none),
                 ("specialization", .str "general"),
                 ("compliance_level", .str "sec_compliant")]
              let result := processChat customGpt agentOut processingTimeMs chatModelName
              let result := dictSet result "processing_time_ms" (.int processingTimeMs)
              (result, true)
        | _ =>
            (.dict [("success", .bool false),
                    ("error", .str "Invalid JSON in input_data"),
                    ("processing_time_ms", .int 0)], false)

/-- One attempt of the retry loop in `_process_inference_request`: route by
request type; unknown types produce the error dict without an agent call. -/
def attemptOnce (request : PyVal) (gpu : Nat → Bool)
    (agent : Nat → AgentRunOutcome) (processingTimeMs : Nat)
    (chatModelName : String) (i : Nat) : PyVal :=
  let requestType := asStrD (dictGetD request "request_type" .none) ""
  if requestType = "chat" ∨ requestType = "analysis" ∨ requestType = "compliance_check" then
    (processChatRequest request (gpu i) (agent i) processingTimeMs chatModelName).1
  else
    .dict [("success", .bool false),
           ("error", .str ("Unknown request type: " ++ requestType)),
           ("processing_time_ms", .int 0)]

/-- The `for attempt in range(max_retries + 1)` loop: keep the last result,
break on success; a non-successful result dict is simply attempted again.
Returns the final result together with the number of attempts made. -/
def retryLoop (attemptResult : Nat → PyVal) (attempt : Nat) :
    Nat → PyVal × Nat
  | 0 =>
      (attemptResult attempt, attempt + 1)
  | remaining + 1 =>
      let result := attemptResult attempt
      if pyTruthy (dictGetD result "success" (.bool false)) then
        (result, attempt + 1)
      else
        retryLoop attemptResult (attempt + 1) remaining

/-- Attempts `max_retries + 1` calls starting at attempt 0. -/
def processWithRetries (attemptResult : Nat → PyVal) (maxRetries : Nat) :
    PyVal × Nat :=
  retryLoop attemptResult 0 maxRetries

/-- The tail of `_process_inference_request` once a request object is in hand:
run the retry loop, then complete the queue row with
`success=result.get("success", False)`, `response_data=result.get("data", \x7b\x7d)`
and `error_message=result.get("error")`. -/
def processClaimedRequest (maxRetries : Nat) (gpu : Nat → Bool)
    (agent : Nat → AgentRunOutcome) (processingTimeMs : Nat)
    (chatModelName : String) (now : Nat) (request : PyVal)
    (s : QueueState) : QueueState :=
  let requestId := asStrD (dictGetD request "request_id" .none) ""
  let result :=
    (processWithRetries
      (attemptOnce request gpu agent processingTimeMs chatModelName)
      maxRetries).1
  (completeInferenceRequest requestId
    (pyTruthy (dictGetD result "success" (.bool false)))
    (dictGetD result "data" (.dict []))
    (pyGetStr result "error")
    now s).2

/-- `InferenceService._process_inference_request`: one dispatcher cycle over
the queue.  When `get_next_request` yields `None` the cycle returns with the
state as the broker left it. -/
def processInferenceRequest (maxRetries : Nat) (gpu : Nat → Bool)
    (agent : Nat → AgentRunOutcome) (processingTimeMs : Nat)
    (chatModelName : String) (now : Nat) (s : QueueState) : QueueState :=
  match getNextRequest now s with
  | (Option.none, s1) => s1
  | (some request, s1) =>
      processClaimedRequest maxRetries gpu agent processingTimeMs
        chatModelName now request s1

/-! ### Main loop circuit breaker (`InferenceService.start`) -/

/-- Whether a loop cycle (`_process_inference_request` plus bookkeeping)
raised an exception. -/
inductive CycleOutcome where
  | ok
  | error

/-- Observable scheduling events of the main loop. -/
inductive LoopEvent where
  | errorSleep (seconds : Nat)
  | pollSleep (seconds : Nat)
  | exited
deriving DecidableEq

/-- Circuit-breaker state of the main loop. -/
structure DispatcherState where
  consecutiveErrors : Nat
  running : Bool
deriving DecidableEq

/-- `max_consecutive_errors` of `InferenceService.start`. -/
def maxConsecutiveErrors : Nat := 5

/-- One iteration of the `while self.running` loop: a successful cycle resets
the counter and sleeps `poll_interval`; an exception increments the counter,
computes `min(counter * 2, 30)`, breaks out (stopping the service) once the
counter reaches 5, and otherwise sleeps the backoff delay followed by the
poll interval. -/
def loopCycle (pollInterval : Nat) (outcome : CycleOutcome)
    (st : DispatcherState) : DispatcherState × List LoopEvent :=
  match outcome with
  | .ok =>
      ({ st with consecutiveErrors := 0 }, [.pollSleep pollInterval])
  | .error =>
      let c := st.consecutiveErrors + 1
      let errorDelay := min (c * 2) 30
      if c ≥ maxConsecutiveErrors then
        ({ consecutiveErrors := c, running := false }, [.exited])
      else
        ({ st with consecutiveErrors := c },
         [.errorSleep errorDelay, .pollSleep pollInterval])

/-- Run the main loop over a finite trace of cycle outcomes, collecting the
events; the loop stops consuming outcomes once `running` is false. -/
def runLoop (pollInterval : Nat) : List CycleOutcome → DispatcherState →
    DispatcherState × List LoopEvent
  | [], st => (st, [])
  | o :: os, st =>
      if st.running = false then (st, [])
      else
        let step := loopCycle pollInterval o st
        let rest := runLoop pollInterval os step.1
        (rest.1, step.2 ++ rest.2)

/-- Count of backoff sleeps in an event list. -/
def countErrorSleeps (evs : List LoopEvent) : Nat :=
  evs.countP (fun e => match e with | .errorSleep _ => true | _ => false)

/-! ### GPU arbiter (`GPUResourceManager`, gpu_manager.py) -/

/-- Arbiter state: the tracking fields plus the single-permit semaphore. -/
structure GpuState where
  resourceAcquiredAt : Option Nat
  currentHolder : Option String
  totalAcquisitions : Nat
  totalWaitTimeMs : Nat
  semaphoreLocked : Bool
deriving DecidableEq

/-- Outcome of `release_resource`.  The source never raises: releasing while
not holding logs a warning and returns.  The `raised` constructor exists so
that the specified raise-loudly behaviour is statable. -/
inductive ReleaseOutcome where
  | released
  | warnedNotAcquired
  | raised (msg : String)
deriving DecidableEq

/-- `GPUResourceManager.release_resource`: guard on the tracking field, log a
warning and return when no acquisition is recorded; otherwise reset the
tracking fields and release the semaphore. -/
def releaseResource (st : GpuState) : GpuState × ReleaseOutcome :=
  match st.resourceAcquiredAt with
  | Option.none => (st, .warnedNotAcquired)
  | some _ =>
      ({ st with
           resourceAcquiredAt := Option.none
           currentHolder := Option.none
           semaphoreLocked := false }, .released)

/-- `GPUResourceManager.acquire_resource`: `timedOut` is whether
`asyncio.wait_for` gave up before the semaphore was granted; on success the
tracking fields are updated and the wait time accounted. -/
def acquireResource (timedOut : Bool) (now waitMs : Nat) (requestId : String)
    (st : GpuState) : GpuState × Bool :=
  if timedOut then (st, false)
  else
    ({ st with
         resourceAcquiredAt := some now
         currentHolder := some requestId
         totalAcquisitions := st.totalAcquisitions + 1
         totalWaitTimeMs := st.totalWaitTimeMs + waitMs
         semaphoreLocked := true }, true)

/-- Does a release outcome raise. -/
def isRaised : ReleaseOutcome → Bool
  | .raised _ => true
  | _ => false

/-! ### Concrete fixtures for witnesses and counterexamples -/

/-- A well-formed decoded `input_data` payload for a chat request. -/
def inputData0 : PyVal := .dict
  [("message_id", .str "m1"),
   ("thread_id", .str "t1"),
   ("custom_gpt_id", .str "g1"),
   ("user_message", .str "hello"),
   ("context_messages", .list []),
   ("attachments", .list [])]

/-- A freshly enqueued pending chat row. -/
def row0 : QueueRow :=
  { id := "r1", request_type := "chat", message_id := some "m1",
    custom_gpt_id := some "g1", user_id := "u1", priority := 5,
    status := .pending, created_at := 0, started_at := Option.none,
    completed_at := Option.none, input_data := inputData0,
    response_content := Option.none, response_metadata := Option.none,
    error_message := Option.none, retry_count := 0 }

/-- A request object with a valid `input_data`, as `_process_chat_request`
expects one. -/
def req6 : PyVal := .dict
  [("request_id", .str "r6"),
   ("request_type", .str "chat"),
   ("message_id", .str "m1"),
   ("custom_gpt_id", .str "g1"),
   ("user_id", .str "u1"),
   ("priority", .int 5),
   ("created_at", .int 0),
   ("input_data", inputData0)]

/-- A custom-GPT configuration with the `general` specialization. -/
def cg0 : PyVal := .dict
  [("id", .str "g1"),
   ("user_id", .str "u1"),
   ("specialization", .str "general"),
   ("compliance_level", .str "sec_compliant")]

/-- A custom-GPT configuration with the `compliance` specialization. -/
def cgCompliance : PyVal := .dict
  [("id", .str "g2"),
   ("user_id", .str "u1"),
   ("specialization", .str "compliance"),
   ("compliance_level", .str "sec_compliant")]

/-- An idle arbiter: no permit held, nothing recorded. -/
def gpuIdle : GpuState :=
  { resourceAcquiredAt := Option.none, currentHolder := Option.none,
    totalAcquisitions := 0, totalWaitTimeMs := 0, semaphoreLocked := false }

/-- A claimed (processing) chat row with id `r4`. -/
def row4 : QueueRow := { row0 with id := "r4", status := .processing }

/-- The request object the broker would hand over for `row4`. -/
def req4 : PyVal := .dict
  [("request_id", .str "r4"),
   ("request_type", .str "chat"),
   ("message_id", .str "m1"),
   ("custom_gpt_id", .str "g1"),
   ("user_id", .str "u1"),
   ("priority", .int 5),
   ("created_at", .int 0),
   ("input_data", inputData0)]

/-- A claimed (processing) chat row with id `rA`. -/
def row10 : QueueRow := { row0 with id := "rA", status := .processing }

/-- The request object the broker would hand over for `row10`. -/
def req10 : PyVal := .dict
  [("request_id", .str "rA"),
   ("request_type", .str "chat"),
   ("message_id", .str "m1"),
   ("custom_gpt_id", .str "g1"),
   ("user_id", .str "u1"),
   ("priority", .int 5),
   ("created_at", .int 0),
   ("input_data", inputData0)]

/-- Adapter behaviour failing three times with a model-behaviour error and
succeeding on the fourth attempt. -/
def agent10 : Nat → AgentRunOutcome :=
  fun i => if i < 3 then .unexpectedModelBehavior "boom"
           else .ok "fourth answer" 1 1

/-- A processing row for exercising `complete_inference_request`. -/
def row9 : QueueRow := { row0 with id := "r9", status := .processing }

/-- High-priority pending row (priority 1, created later). -/
def rowA0 : QueueRow := { row0 with id := "ra", priority := 1, created_at := 5 }

/-- Low-priority pending row (priority 5, created earlier). -/
def rowB0 : QueueRow := { row0 with id := "rb", priority := 5, created_at := 0 }

/-- The claim order of a single worker repeatedly invoking the broker with no
other activity: at each step the id of the row `poll_inference_queue` selects,
with the state advanced by `get_next_request`. -/
def claimSequence (now : Nat) : Nat → QueueState → List String
  | 0, _ => []
  | n + 1, s =>
      match selectMinPending s with
      | Option.none => []
      | some m => m.id :: claimSequence now n (getNextRequest now s).2

/-! ### Helper lemmas -/

theorem keyLt_irrefl (r : QueueRow) : keyLt r r = false := by
  simp [keyLt]

theorem keyLt_asymm {a b : QueueRow} (h : keyLt a b = true) : keyLt b a = false := by
  simp only [keyLt, decide_eq_true_eq, decide_eq_false_iff_not] at *
  omega

theorem keyLt_resolve {x m r : QueueRow} (hxr : keyLt x r = true)
    (hmr : keyLt m r = false) : keyLt x m = true := by
  simp only [keyLt, decide_eq_true_eq, decide_eq_false_iff_not] at *
  omega

theorem selectMinPending_mem : ∀ {s : QueueState} {m : QueueRow},
    selectMinPending s = some m → m ∈ s ∧ m.status = Status.pending := by
  intro s
  induction s with
  | nil => intro m h; simp [selectMinPending] at h
  | cons r rs ih =>
      intro m h
      simp only [selectMinPending] at h
      by_cases hr : r.status = Status.pending
      · rw [if_pos hr] at h
        cases hrest : selectMinPending rs with
        | none =>
            rw [hrest] at h
            simp only [minPick] at h
            cases h
            exact ⟨List.mem_cons_self r rs, hr⟩
        | some m' =>
            rw [hrest] at h
            simp only [minPick] at h
            by_cases hk : keyLt m' r = true
            · rw [if_pos hk] at h
              cases h
              have := ih hrest
              exact ⟨List.mem_cons_of_mem _ this.1, this.2⟩
            · rw [if_neg hk] at h
              cases h
              exact ⟨List.mem_cons_self r rs, hr⟩
      · rw [if_neg hr] at h
        have := ih h
        exact ⟨List.mem_cons_of_mem _ this.1, this.2⟩

theorem selectMinPending_none : ∀ {s : QueueState},
    selectMinPending s = Option.none → ∀ r ∈ s, r.status ≠ Status.pending := by
  intro s
  induction s with
  | nil => intro _ r hr; simp at hr
  | cons a rs ih =>
      intro h r hr
      simp only [selectMinPending] at h
      by_cases ha : a.status = Status.pending
      · rw [if_pos ha] at h
        cases hrest : selectMinPending rs with
        | none => rw [hrest] at h; simp [minPick] at h
        | some m' =>
            rw [hrest] at h
            simp only [minPick] at h
            split at h <;> simp at h
      · rw [if_neg ha] at h
        cases hr with
        | head => exact ha
        | tail _ hr => exact ih h r hr

theorem selectMinPending_min : ∀ {s : QueueState} {m : QueueRow},
    selectMinPending s = some m →
    ∀ r ∈ s, r.status = Status.pending → keyLt r m = false := by
  intro s
  induction s with
  | nil => intro m h; simp [selectMinPending] at h
  | cons a rs ih =>
      intro m h r hr hrp
      simp only [selectMinPending] at h
      by_cases ha : a.status = Status.pending
      · rw [if_pos ha] at h
        cases hrest : selectMinPending rs with
        | none =>
            rw [hrest] at h
            simp only [minPick] at h
            cases h
            cases hr with
            | head => exact keyLt_irrefl _
            | tail _ hr => exact absurd hrp (selectMinPending_none hrest r hr)
        | some m' =>
            rw [hrest] at h
            simp only [minPick] at h
            by_cases hk : keyLt m' a = true
            · rw [if_pos hk] at h
              cases h
              cases hr with
              | head => exact keyLt_asymm hk
              | tail _ hr => exact ih hrest r hr hrp
            · rw [if_neg hk] at h
              cases h
              cases hr with
              | head => exact keyLt_irrefl _
              | tail _ hr =>
                  have h1 := ih hrest r hr hrp
                  by_contra hc
                  rw [Bool.not_eq_false] at hc
                  have h2 : keyLt m' a = false := by
                    cases hmb : keyLt m' a with
                    | false => rfl
                    | true => exact absurd hmb hk
                  have := keyLt_resolve hc h2
                  rw [this] at h1
                  exact absurd h1 (by simp)
      · rw [if_neg ha] at h
        cases hr with
        | head => exact absurd hrp ha
        | tail _ hr => exact ih h r hr hrp

theorem claim_preserves_other {r : QueueRow} {s : QueueState} {rid : String}
    {now : Nat} (hr : r ∈ s) (hne : r.id ≠ rid) :
    r ∈ (claimInferenceRequest rid now s).2 := by
  have h2 : r ∈ List.map (fun x =>
      if x.id = rid ∧ x.status = Status.pending then
        { x with status := Status.processing, started_at := some now }
      else x) s :=
    List.mem_map.mpr ⟨r, hr, if_neg (fun hcon => hne hcon.1)⟩
  simpa [claimInferenceRequest] using h2

theorem claim_ids (rid : String) (now : Nat) (s : QueueState) :
    ((claimInferenceRequest rid now s).2).map QueueRow.id = s.map QueueRow.id := by
  simp only [claimInferenceRequest, List.map_map]
  apply List.map_congr_left
  intro r _
  by_cases h : r.id = rid ∧ r.status = Status.pending
  · simp [Function.comp, h]
  · simp [Function.comp, h]

theorem rowDict_request_data (r : QueueRow) :
    dictGetOpt (.dict (rowToDict r)) "request_data" = Option.none := rfl

theorem getNextRequest_snd {s : QueueState} {m : QueueRow} (now : Nat)
    (h : selectMinPending s = some m) :
    (getNextRequest now s).2 = (claimInferenceRequest m.id now s).2 := by
  simp only [getNextRequest, h, rowDict_request_data]
  split <;> rfl

theorem eq_of_mem_id {s : QueueState} (hnd : idsNodup s) {a b : QueueRow}
    (ha : a ∈ s) (hb : b ∈ s) (h : a.id = b.id) : a = b :=
  List.inj_on_of_nodup_map hnd ha hb h

theorem retryLoop_const_failure {result : PyVal} {att : Nat → PyVal}
    (hfail : pyTruthy (dictGetD result "success" (.bool false)) = false)
    (hatt : ∀ i, att i = result) :
    ∀ (remaining attempt : Nat),
      retryLoop att attempt remaining = (result, attempt + remaining + 1) := by
  intro remaining
  induction remaining with
  | zero => intro a; simp [retryLoop, hatt]
  | succ n ih =>
      intro a
      simp only [retryLoop, hatt, hfail]
      rw [if_neg (by simp)]
      rw [ih (a + 1)]
      have : a + 1 + n + 1 = a + (n + 1) + 1 := by omega
      rw [this]

/-! ### Claim C7 -/

/-- C7 (amended): calling the arbiter release operation when no permit is
held is a silent no-op -- `release_resource` logs a warning and returns with
the state unchanged; it does not raise. -/
theorem release_without_holding_silent_noop (st : GpuState)
    (h : st.resourceAcquiredAt = Option.none) :
    releaseResource st = (st, ReleaseOutcome.warnedNotAcquired) := by
  unfold releaseResource
  rw [h]

/-- C7 witness: the amended release behaviour at the idle arbiter state. -/
theorem release_without_holding_silent_noop_witness :
    releaseResource gpuIdle = (gpuIdle, ReleaseOutcome.warnedNotAcquired) :=
  release_without_holding_silent_noop gpuIdle rfl

/-- C7 counterexample: at the concrete idle arbiter state, `release_resource`
does not raise -- it returns the warned-no-op outcome and leaves the state
unchanged -- refuting the claim that releasing without holding raises an
error in every such state. -/
theorem release_without_holding_counterexample :
    isRaised (releaseResource gpuIdle).2 = false ∧
    (releaseResource gpuIdle).2 = ReleaseOutcome.warnedNotAcquired ∧
    (releaseResource gpuIdle).1 = gpuIdle := by
  decide

/-! ### Claim C5 -/

/-- C5 (amended): each loop-cycle exception increments the consecutive-error
counter; while the incremented counter is below 5 the loop sleeps
`min(counter * 2, 30)` seconds followed by the poll interval; the exception
that brings the counter to 5 stops the dispatcher without a backoff sleep;
and a cycle that completes without an exception resets the counter to zero. -/
theorem circuit_breaker_cycle (p : Nat) (st : DispatcherState) :
    (loopCycle p CycleOutcome.ok st
      = ({ st with consecutiveErrors := 0 }, [LoopEvent.pollSleep p])) ∧
    (st.consecutiveErrors + 1 < maxConsecutiveErrors →
      loopCycle p CycleOutcome.error st
        = ({ st with consecutiveErrors := st.consecutiveErrors + 1 },
           [LoopEvent.errorSleep (min ((st.consecutiveErrors + 1) * 2) 30),
            LoopEvent.pollSleep p])) ∧
    (st.consecutiveErrors + 1 ≥ maxConsecutiveErrors →
      loopCycle p CycleOutcome.error st
        = ({ consecutiveErrors := st.consecutiveErrors + 1, running := false },
           [LoopEvent.exited])) := by
  refine ⟨rfl, ?_, ?_⟩
  · intro h
    simp only [loopCycle]
    rw [if_neg (by omega)]
  · intro h
    simp only [loopCycle]
    rw [if_pos h]

/-- C5 witness: an exception on a fresh dispatcher state increments the
counter to 1 and sleeps 2 seconds before the next poll. -/
theorem circuit_breaker_cycle_witness :
    loopCycle 2 CycleOutcome.error ⟨0, true⟩
      = (⟨1, true⟩, [LoopEvent.errorSleep 2, LoopEvent.pollSleep 2]) :=
  (circuit_breaker_cycle 2 ⟨0, true⟩).2.1 (by decide)

/-- C5 counterexample: five consecutive exception cycles from a fresh state
produce only four backoff sleeps -- the fifth exception exits the loop
without sleeping -- refuting the claim that every exception triggers a sleep
of `min(2 * counter, 30)` seconds (the loop does stop at 5). -/
theorem circuit_breaker_counterexample :
    countErrorSleeps
        (runLoop 2 (List.replicate 5 CycleOutcome.error) ⟨0, true⟩).2 = 4 ∧
    ¬ countErrorSleeps
        (runLoop 2 (List.replicate 5 CycleOutcome.error) ⟨0, true⟩).2 = 5 ∧
    (runLoop 2 (List.replicate 5 CycleOutcome.error) ⟨0, true⟩).1.running
      = false := by
  decide

/-! ### Claim C6 -/

/-- C6 (amended): when GPU-permit acquisition times out on a request carrying
valid input data, `_process_chat_request` returns a failure result whose
error message is "GPU resource timeout - system overloaded" (the source
appends " - system overloaded" to the message the claim states), and the
`_gpu_resource` context manager never releases the permit on this path
because it never acquired it. -/
theorem gpu_timeout_failure (request : PyVal) (d : List (String × PyVal))
    (agentOut : AgentRunOutcome) (t : Nat) (model : String)
    (hin : dictGetOpt request "input_data" = some (.dict d)) (hne : d ≠ []) :
    processChatRequest request false agentOut t model
      = (.dict [("success", .bool false),
                ("error", .str "GPU resource timeout - system overloaded"),
                ("processing_time_ms", .int 0)], false) := by
  simp only [processChatRequest, hin]
  rw [if_neg (by simp [pyTruthy, hne])]
  rw [if_pos trivial]

/-- C6 witness: the amended GPU-timeout behaviour at a concrete request. -/
theorem gpu_timeout_failure_witness :
    processChatRequest req6 false (.ok "ignored" 1 1) 0 "m"
      = (.dict [("success", .bool false),
                ("error", .str "GPU resource timeout - system overloaded"),
                ("processing_time_ms", .int 0)], false) :=
  gpu_timeout_failure req6 _ (.ok "ignored" 1 1) 0 "m" rfl
    (by exact List.cons_ne_nil _ _)

/-- C6 counterexample: at a concrete request, the recorded error message is
"GPU resource timeout - system overloaded", not the exact string
"GPU resource timeout" the claim states (the permit is indeed not
released). -/
theorem gpu_timeout_message_counterexample :
    pyGetStr (processChatRequest req6 false (.ok "ignored" 1 1) 0 "m").1 "error"
      = some "GPU resource timeout - system overloaded" ∧
    ¬ pyGetStr (processChatRequest req6 false (.ok "ignored" 1 1) 0 "m").1 "error"
      = some "GPU resource timeout" ∧
    (processChatRequest req6 false (.ok "ignored" 1 1) 0 "m").2 = false := by
  decide

/-! ### Claim C8 -/

/-- C8 (amended): an adapter response whose content contains a prohibited
phrase ("guaranteed returns" or "risk-free", case-insensitively) always gets
`sec_compliant = false` and the `SEC_NON_COMPLIANT` flag; but
`human_review_required` (and with it the `HUMAN_REVIEW_REQUIRED` flag) is
driven only by the rule `confidence < 0.7 ∨ specialization = compliance`,
and the confidence heuristic never goes below 0.75, so it holds exactly for
the compliance specialization -- not regardless of specialization. -/
theorem prohibited_phrases_non_compliant (customGpt : PyVal) (output : String)
    (inTok outTok t : Nat) (model : String)
    (h : (strContains (strToLower output) "guaranteed returns"
          || strContains (strToLower output) "risk-free") = true) :
    pyGetBool (processChat customGpt (.ok output inTok outTok) t model)
        "sec_compliant" = some false ∧
    pyGetBool (processChat customGpt (.ok output inTok outTok) t model)
        "human_review_required"
      = some (decide (specializationOf customGpt = "compliance")) ∧
    dictGetOpt (processChat customGpt (.ok output inTok outTok) t model)
        "compliance_flags"
      = some (.list (PyVal.str "SEC_NON_COMPLIANT" ::
          (if specializationOf customGpt = "compliance"
           then [PyVal.str "HUMAN_REVIEW_REQUIRED"] else []))) := by
  have hsec : checkSecCompliance output (specializationOf customGpt) = false := by
    simp only [checkSecCompliance]
    rw [if_pos h]
  have hc70 : ¬ (calculateConfidenceScore (specializationOf customGpt) < 70) := by
    unfold calculateConfidenceScore
    split_ifs <;> omega
  have hc50 : ¬ (calculateConfidenceScore (specializationOf customGpt) < 50) := by
    unfold calculateConfidenceScore
    split_ifs <;> omega
  simp only [processChat, hsec, decide_eq_false hc70, Bool.false_or,
    if_neg hc50, pyGetBool, dictGetOpt, assocFind]
  by_cases hsp : specializationOf customGpt = "compliance"
  · simp [hsp]
  · simp [hsp]

/-- C8 witness: for the compliance specialization, a "risk-free" response is
flagged non-compliant and requires human review. -/
theorem prohibited_phrases_non_compliant_witness :
    pyGetBool (processChat cgCompliance (.ok "A risk-free strategy." 3 7) 12
        "gpt-oss") "sec_compliant" = some false ∧
    pyGetBool (processChat cgCompliance (.ok "A risk-free strategy." 3 7) 12
        "gpt-oss") "human_review_required" = some true ∧
    dictGetOpt (processChat cgCompliance (.ok "A risk-free strategy." 3 7) 12
        "gpt-oss") "compliance_flags"
      = some (.list [.str "SEC_NON_COMPLIANT", .str "HUMAN_REVIEW_REQUIRED"]) :=
  prohibited_phrases_non_compliant cgCompliance "A risk-free strategy." 3 7 12
    "gpt-oss" (by decide)

/-- C8 counterexample: for the `general` specialization, a response containing
"guaranteed returns" gets `sec_compliant = false`, but
`human_review_required = false` and the flags are exactly
`[SEC_NON_COMPLIANT]` -- no `HUMAN_REVIEW_REQUIRED` -- refuting the claim
that both hold regardless of specialization. -/
theorem prohibited_phrases_counterexample :
    pyGetBool (processChat cg0 (.ok "This plan has guaranteed returns." 3 7) 12
        "gpt-oss") "sec_compliant" = some false ∧
    pyGetBool (processChat cg0 (.ok "This plan has guaranteed returns." 3 7) 12
        "gpt-oss") "human_review_required" = some false ∧
    dictGetOpt (processChat cg0 (.ok "This plan has guaranteed returns." 3 7) 12
        "gpt-oss") "compliance_flags"
      = some (.list [.str "SEC_NON_COMPLIANT"]) :=
  ⟨rfl, rfl, rfl⟩

/-! ### Claim C9 -/

/-- C9: `complete_inference_request` reports success exactly when the row is
currently in `processing`; when it reports failure the table is unchanged;
when the row is in `processing` it is set to the terminal status with
`completed_at`, the extracted response content and metadata, and the error
message; and rows not matching the guard are untouched. -/
theorem complete_terminal_iff_processing (s : QueueState) (rid : String)
    (success : Bool) (rd : PyVal) (em : Option String) (now : Nat) :
    ((completeInferenceRequest rid success rd em now s).1 = true ↔
        ∃ r ∈ s, r.id = rid ∧ r.status = Status.processing) ∧
    ((completeInferenceRequest rid success rd em now s).1 = false →
        (completeInferenceRequest rid success rd em now s).2 = s) ∧
    (∀ r ∈ s, r.id = rid → r.status = Status.processing →
        { r with
            status := if success then Status.completed else Status.failed
            completed_at := some now
            response_content :=
              if pyTruthy rd then dictGetOpt rd "content" else Option.none
            response_metadata :=
              some (if pyTruthy rd then dictGetD rd "metadata" (.dict [])
                    else PyVal.dict [])
            error_message := em }
          ∈ (completeInferenceRequest rid success rd em now s).2) ∧
    (∀ r ∈ s, ¬(r.id = rid ∧ r.status = Status.processing) →
        r ∈ (completeInferenceRequest rid success rd em now s).2) := by
  refine ⟨?_, ?_, ?_, ?_⟩
  · simp [completeInferenceRequest, List.any_eq_true]
  · intro h
    simp only [completeInferenceRequest] at h ⊢
    rw [List.any_eq_false] at h
    have hfix : ∀ r ∈ s, (if r.id = rid ∧ r.status = Status.processing then
        { r with
            status := if success then Status.completed else Status.failed
            completed_at := some now
            response_content :=
              if pyTruthy rd then dictGetOpt rd "content" else Option.none
            response_metadata :=
              some (if pyTruthy rd then dictGetD rd "metadata" (.dict [])
                    else PyVal.dict [])
            error_message := em } else r) = r := by
      intro r hr
      rw [if_neg]
      have := h r hr
      simpa using this
    calc List.map _ s = List.map id s := List.map_congr_left hfix
    _ = s := List.map_id s
  · intro r hr h1 h2
    exact List.mem_map.mpr ⟨r, hr, by rw [if_pos ⟨h1, h2⟩]⟩
  · intro r hr h
    exact List.mem_map.mpr ⟨r, hr, by rw [if_neg h]⟩

/-- C9 witness: completing a concrete processing row writes the terminal
fields. -/
theorem complete_terminal_iff_processing_witness :
    { row9 with
        status := Status.completed
        completed_at := some 11
        response_content := Option.none
        response_metadata := some (PyVal.dict [])
        error_message := Option.none }
      ∈ (completeInferenceRequest "r9" true (PyVal.dict []) Option.none 11
          [row9]).2 :=
  (complete_terminal_iff_processing [row9] "r9" true (PyVal.dict []) Option.none
    11).2.2.1 row9 (List.Mem.head _) rfl rfl

/-! ### Claim C1 -/

/-- C1: evaluating one dispatcher cycle at a queue holding a single pending
chat request whose adapter invocation would succeed: the broker claims the
row, then `get_next_request` indexes the missing `request_data` key (the
polled columns carry `input_data`), the `KeyError` reaches the catch-all
handler, and `None` is returned -- so the cycle ends with the row stuck in
`processing`, no adapter call made, and no response recorded, contradicting
the claimed round trip to `completed` with the adapter's content and
metadata. -/
theorem roundtrip_code_bug_eval :
    processInferenceRequest 3 (fun _ => true)
        (fun _ => .ok "Hello there" 10 5) 42 "gpt-oss" 7 [row0]
      = [{ row0 with
            status := Status.processing
            started_at := some 7 }] := rfl

/-! ### Claim C2 -/

/-- C2: at a queue with one pending row, `get_next_request` claims the row
(marking it processing with `started_at` set) and then returns `None` -- the
`request_data` KeyError fires after the claim has committed -- so the row
leaves `pending` while being handed to no caller, contradicting the claim
that a successful claim is always followed by returning the request
object. -/
theorem claim_then_none_code_bug_eval :
    getNextRequest 7 [row0]
      = (Option.none, [{ row0 with
            status := Status.processing
            started_at := some 7 }]) := rfl

/-! ### Claim C4 -/

/-- C4 (amended): when the adapter raises `UsageLimitExceeded` on every
attempt, the chat agent converts each exception into a failure result whose
content is "Response limit exceeded. Please try a simpler request." and
whose `error` field is the raw exception text; the dispatcher retries such
failure results like any other, so `max_queue_retries + 1` adapter attempts
are made in all, and the final result carries the raw exception text -- not
the user-facing sentence -- as the error message the queue row is failed
with. -/
theorem usage_limit_retried (request : PyVal) (d : List (String × PyVal))
    (msg : String) (maxRetries t : Nat) (model : String)
    (hin : dictGetOpt request "input_data" = some (.dict d)) (hne : d ≠ [])
    (hty : dictGetD request "request_type" .none = .str "chat") :
    (processWithRetries (attemptOnce request (fun _ => true)
        (fun _ => .usageLimitExceeded msg) t model) maxRetries).2
      = maxRetries + 1 ∧
    pyGetBool (processWithRetries (attemptOnce request (fun _ => true)
        (fun _ => .usageLimitExceeded msg) t model) maxRetries).1 "success"
      = some false ∧
    pyGetStr (processWithRetries (attemptOnce request (fun _ => true)
        (fun _ => .usageLimitExceeded msg) t model) maxRetries).1 "content"
      = some "Response limit exceeded. Please try a simpler request." ∧
    pyGetStr (processWithRetries (attemptOnce request (fun _ => true)
        (fun _ => .usageLimitExceeded msg) t model) maxRetries).1 "error"
      = some msg := by
  have hatt : ∀ i, attemptOnce request (fun _ => true)
      (fun _ => .usageLimitExceeded msg) t model i
      = dictSet (chatErrorDict "general"
          "Response limit exceeded. Please try a simpler request." msg t)
          "processing_time_ms" (.int t) := by
    intro i
    simp only [attemptOnce, hty]
    have hchat : asStrD (PyVal.str "chat") "" = "chat" ∨
        asStrD (PyVal.str "chat") "" = "analysis" ∨
        asStrD (PyVal.str "chat") "" = "compliance_check" := Or.inl rfl
    rw [if_pos hchat]
    simp only [processChatRequest, hin]
    rw [if_neg (by simp [pyTruthy, hne])]
    rfl
  have hfail : pyTruthy (dictGetD (dictSet (chatErrorDict "general"
      "Response limit exceeded. Please try a simpler request." msg t)
      "processing_time_ms" (.int t)) "success" (.bool false)) = false := rfl
  have hloop := retryLoop_const_failure hfail hatt maxRetries 0
  unfold processWithRetries
  rw [hloop]
  exact ⟨by omega, rfl, rfl, rfl⟩

/-- C4 witness: the amended retry behaviour at a concrete request with
`max_queue_retries = 3`: four adapter attempts, raw exception text as the
error. -/
theorem usage_limit_retried_witness :
    (processWithRetries (attemptOnce req4 (fun _ => true)
        (fun _ => .usageLimitExceeded "usage limit hit") 0 "m") 3).2 = 4 ∧
    pyGetStr (processWithRetries (attemptOnce req4 (fun _ => true)
        (fun _ => .usageLimitExceeded "usage limit hit") 0 "m") 3).1 "error"
      = some "usage limit hit" :=
  ⟨(usage_limit_retried req4 _ "usage limit hit" 3 0 "m" rfl
      (List.cons_ne_nil _ _) rfl).1,
   (usage_limit_retried req4 _ "usage limit hit" 3 0 "m" rfl
      (List.cons_ne_nil _ _) rfl).2.2.2⟩

/-- C4 counterexample: with the adapter failing with `UsageLimitExceeded` on
every attempt and `max_queue_retries = 3`, four adapter attempts are made
(not one), and the row is failed with error message "usage limit hit" (the
raw exception text), not "Response limit exceeded" -- refuting both parts of
the claim. -/
theorem usage_limit_counterexample :
    (processWithRetries (attemptOnce req4 (fun _ => true)
        (fun _ => .usageLimitExceeded "usage limit hit") 0 "m") 3).2 = 4 ∧
    ¬ (processWithRetries (attemptOnce req4 (fun _ => true)
        (fun _ => .usageLimitExceeded "usage limit hit") 0 "m") 3).2 = 1 ∧
    processClaimedRequest 3 (fun _ => true)
        (fun _ => .usageLimitExceeded "usage limit hit") 0 "m" 9 req4 [row4]
      = [{ row4 with
            status := Status.failed
            completed_at := some 9
            response_metadata := some (.dict [])
            error_message := some "usage limit hit" }] :=
  ⟨rfl, by decide, rfl⟩

/-! ### Claim C10 -/

/-- Completion never touches `retry_count` or `id`. -/
theorem complete_preserves_id_retry (rid : String) (success : Bool)
    (rd : PyVal) (em : Option String) (now : Nat) (s : QueueState) :
    ∀ r' ∈ (completeInferenceRequest rid success rd em now s).2,
      ∃ r ∈ s, r'.id = r.id ∧ r'.retry_count = r.retry_count := by
  intro r' hr'
  simp only [completeInferenceRequest] at hr'
  rw [List.mem_map] at hr'
  obtain ⟨r, hr, hEq⟩ := hr'
  subst hEq
  by_cases hcond : r.id = rid ∧ r.status = Status.processing
  · exact ⟨r, hr, by simp [hcond], by simp [hcond]⟩
  · exact ⟨r, hr, by simp [hcond], by simp [hcond]⟩

/-- C10 (amended): the worker never increments or persists `retry_count`:
after processing a claimed request -- however many failed attempts and
retries the loop went through -- every row of the resulting state keeps the
`retry_count` it had before; only the loop-local attempt counter tracks
attempts. -/
theorem retry_count_never_persisted (maxRetries : Nat) (gpu : Nat → Bool)
    (agent : Nat → AgentRunOutcome) (t : Nat) (model : String) (now : Nat)
    (request : PyVal) (s : QueueState) :
    ∀ r' ∈ processClaimedRequest maxRetries gpu agent t model now request s,
      ∃ r ∈ s, r'.id = r.id ∧ r'.retry_count = r.retry_count := by
  intro r' hr'
  simp only [processClaimedRequest] at hr'
  exact complete_preserves_id_retry _ _ _ _ _ _ r' hr'

/-- C10 witness: after a run with three failed attempts and a fourth
successful one, the completed row keeps the `retry_count` of the original
row. -/
theorem retry_count_never_persisted_witness :
    ∃ r ∈ [row10],
      ({ row10 with
           status := Status.completed
           completed_at := some 9
           response_metadata := some (PyVal.dict []) } : QueueRow).id = r.id ∧
      ({ row10 with
           status := Status.completed
           completed_at := some 9
           response_metadata := some (PyVal.dict []) } : QueueRow).retry_count
        = r.retry_count :=
  retry_count_never_persisted 3 (fun _ => true) agent10 0 "m" 9 req10 [row10]
    _ (List.Mem.head _)

/-- C10 counterexample: three failed attempts followed by a successful
fourth leave the persisted `retry_count` at 0, not 3 as the claim states. -/
theorem retry_count_counterexample :
    processClaimedRequest 3 (fun _ => true) agent10 0 "m" 9 req10 [row10]
      = [{ row10 with
            status := Status.completed
            completed_at := some 9
            response_metadata := some (.dict []) }] ∧
    (processClaimedRequest 3 (fun _ => true) agent10 0 "m" 9 req10
        [row10]).map QueueRow.retry_count = [0] ∧
    ¬ (processClaimedRequest 3 (fun _ => true) agent10 0 "m" 9 req10
        [row10]).map QueueRow.retry_count = [3] :=
  ⟨rfl, rfl, by decide⟩

/-! ### Claim C3 -/

/-- C3: priority-fair claim order.  For any two pending rows A and B with
`(priority_A, created_at_A) < (priority_B, created_at_B)` lexicographically,
a single worker repeatedly invoking the broker with no other activity claims
A strictly before B: wherever B's id occurs in the claim sequence, A's id
occurs at an earlier position. -/
theorem priority_order_claims (now : Nat) :
    ∀ (n : Nat) (s : QueueState) (A B : QueueRow),
      idsNodup s → A ∈ s → B ∈ s →
      A.status = Status.pending → B.status = Status.pending →
      keyLt A B = true →
      ∀ j, (claimSequence now n s).get? j = some B.id →
        ∃ i, i < j ∧ (claimSequence now n s).get? i = some A.id := by
  intro n
  induction n with
  | zero =>
      intro s A B _ _ _ _ _ _ j hj
      simp [claimSequence] at hj
  | succ n ih =>
      intro s A B hnd hA hB hAp hBp hAB j hj
      cases hsel : selectMinPending s with
      | none =>
          simp only [claimSequence, hsel] at hj
          simp at hj
      | some m =>
          have hmm := selectMinPending_mem hsel
          simp only [claimSequence, hsel] at hj ⊢
          by_cases hmB : m.id = B.id
          · exfalso
            have hmBeq : m = B := eq_of_mem_id hnd hmm.1 hB hmB
            have hmin := selectMinPending_min hsel A hA hAp
            rw [hmBeq] at hmin
            rw [hAB] at hmin
            simp at hmin
          · by_cases hmA : m.id = A.id
            · cases j with
              | zero =>
                  exfalso
                  rw [List.get?_cons_zero] at hj
                  injection hj with hj
                  exact hmB hj
              | succ j' =>
                  exact ⟨0, Nat.succ_pos _, by rw [List.get?_cons_zero, hmA]⟩
            · have hAid : A.id ≠ m.id := fun e => hmA e.symm
              have hBid : B.id ≠ m.id := fun e => hmB e.symm
              have hstate := getNextRequest_snd now hsel
              have hA' : A ∈ (getNextRequest now s).2 := by
                rw [hstate]; exact claim_preserves_other hA hAid
              have hB' : B ∈ (getNextRequest now s).2 := by
                rw [hstate]; exact claim_preserves_other hB hBid
              have hnd' : idsNodup (getNextRequest now s).2 := by
                unfold idsNodup
                rw [hstate, claim_ids]
                exact hnd
              cases j with
              | zero =>
                  exfalso
                  rw [List.get?_cons_zero] at hj
                  injection hj with hj
                  exact hmB hj
              | succ j' =>
                  rw [List.get?_cons_succ] at hj
                  obtain ⟨i, hi, hgi⟩ :=
                    ih (getNextRequest now s).2 A B hnd' hA' hB' hAp hBp hAB j' hj
                  exact ⟨i + 1, by omega, by rw [List.get?_cons_succ]; exact hgi⟩

/-- C3 witness: a later-created priority-1 row is claimed before an
earlier-created priority-5 row. -/
theorem priority_order_claims_witness :
    ∃ i, i < 1 ∧ (claimSequence 50 2 [rowB0, rowA0]).get? i = some "ra" :=
  priority_order_claims 50 2 [rowB0, rowA0] rowA0 rowB0
    (by unfold idsNodup; decide)
    (List.Mem.tail _ (List.Mem.head _)) (List.Mem.head _) rfl rfl rfl 1 rfl

end ComplianceAI
